import Mathlib

/-!
Shallow embedding of the `mcp-expose-notes` note-catalog program
(`main.py`, `expose_notes/configuration.py`, `expose_notes/frontmatter_reader.py`).

Modelling conventions:
* Filesystem paths are `PyPath`: a list of components tagged absolute or
  relative.  `Path.__truediv__` is `PyPath.join` (an absolute right operand
  discards the left one, as in `pathlib`).  `Path.resolve()` is modelled as
  the identity (`pyResolve`): paths in play are absolute and symlink-free.
* The filesystem is a value `FS`: a finite map from file paths to raw text
  plus a list of existing directories.  `Path.exists()` is `FS.pexists`;
  `Path.glob` over a missing directory yields the empty listing.
* Calendar instants are abstracted to a day index `Nat`; `strftime
  "%Y-%m-%d"` becomes the injective rendering `fmtDate`, and
  `datetime.isoformat` becomes `isoDT`.  `datetime.now()` becomes explicit
  parameters `today : Nat` (current day index) and `now : String`
  (rendered construction timestamp); no claim inspects the rendering.
* The external frontmatter library is a parameter
  `fm : String → Option Post`: `none` models `frontmatter.load` raising.
* Python header values are the inductive `Value`, with Python truthiness
  `truthy` and `str(·)` as `pyStr`; `x or y` chains are `firstTruthy`.
* Exceptions (`raise ValueError`) are `Except String`.
-/

/-- A `pathlib` path: components plus an absolute/relative tag. -/
inductive PyPath where
  | abs (cs : List String)
  | rel (cs : List String)
deriving DecidableEq, Repr

/-- `pathlib` `/`: an absolute right operand replaces the left. -/
def PyPath.join : PyPath → PyPath → PyPath
  | _, .abs cs => .abs cs
  | .abs a, .rel b => .abs (a ++ b)
  | .rel a, .rel b => .rel (a ++ b)

/-- `PurePath.parent`. -/
def PyPath.parent : PyPath → PyPath
  | .abs cs => .abs cs.dropLast
  | .rel cs => .rel cs.dropLast

/-- `PurePath.name`: the final component (empty for a bare root). -/
def PyPath.name : PyPath → String
  | .abs cs => cs.getLast?.getD ""
  | .rel cs => cs.getLast?.getD ""

/-- `str(path)`. -/
def pstr : PyPath → String
  | .abs cs => "/" ++ String.intercalate "/" cs
  | .rel cs => String.intercalate "/" cs

/-- Split a character list at every `/`. -/
def splitSlash : List Char → List (List Char)
  | [] => [[]]
  | c :: rest =>
    match splitSlash rest with
    | [] => []
    | g :: gs => if c = '/' then [] :: g :: gs else (c :: g) :: gs

/-- `Path(s)`: split a string on `/`, dropping empty components. -/
def strToPath (s : String) : PyPath :=
  let comps := ((splitSlash s.data).map (fun g => (⟨g⟩ : String))).filter (fun c => c ≠ "")
  match s.data with
  | '/' :: _ => .abs comps
  | _ => .rel comps

/-- Lexicographic suffix test on character lists (structural). -/
def chPre : List Char → List Char → Bool
  | [], _ => true
  | _ :: _, [] => false
  | a :: as, b :: bs => a = b && chPre as bs

/-- `str.endswith` / the extension part of a `glob` pattern match. -/
def strEndsWith (s pat : String) : Bool := chPre pat.data.reverse s.data.reverse

/-- Lexicographic (code-point) order on character lists, as Python string
comparison. -/
def lexLeCh : List Char → List Char → Bool
  | [], _ => true
  | _ :: _, [] => false
  | a :: as, b :: bs => if a = b then lexLeCh as bs else decide (a.val.toNat < b.val.toNat)

/-- Python `str` `<=` (lexicographic by code point). -/
def lexLe (a b : String) : Bool := lexLeCh a.data b.data

/-- `Path.resolve()`, modelled as the identity: the paths in play are
absolute and symlink-free. -/
def pyResolve (p : PyPath) : PyPath := p

/-- A parsed frontmatter header value (the Python/YAML scalar types the
program manipulates). -/
inductive Value where
  | vStr (s : String)
  | vDT (d : Nat)
  | vInt (n : Int)
  | vBool (b : Bool)
deriving DecidableEq, Repr

/-- Python truthiness of a header value. -/
def truthy : Value → Bool
  | .vStr s => s ≠ ""
  | .vDT _ => true
  | .vInt n => n ≠ 0
  | .vBool b => b

/-- `strftime "%Y-%m-%d"` of a day index (abstract injective rendering). -/
def fmtDate (d : Nat) : String := toString d

/-- `datetime.isoformat` of a day index (abstract rendering; the
time-of-day part is abstracted away). -/
def isoDT (d : Nat) : String := fmtDate d ++ "T00:00:00"

/-- Python `str(·)` of a header value. -/
def pyStr : Value → String
  | .vStr s => s
  | .vDT d => fmtDate d ++ " 00:00:00"
  | .vInt n => toString n
  | .vBool b => if b then "True" else "False"

/-- A parsed document: frontmatter key/value header plus body text
(`frontmatter.Post`). -/
structure Post where
  meta : List (String × Value)
  content : String
deriving DecidableEq, Repr

/-- `post.get(key)`: dictionary lookup in the header map. -/
def pGet (post : Post) (k : String) : Option Value := post.meta.lookup k

/-- A Python `or`-chain over lookups: the first truthy value wins;
a chain whose every operand is missing or falsy yields `none`
(the final falsy operand renders to `None` downstream in every use). -/
def firstTruthy : List (Option Value) → Option Value
  | [] => none
  | o :: rest =>
    match o with
    | some v => if truthy v then some v else firstTruthy rest
    | none => firstTruthy rest

/-- Python `str.isalpha`-style cased-character test (ASCII fragment). -/
def isCased (c : Char) : Bool := c.isAlpha

/-- Python `str.title()`: each cased character is uppercased when the
previous character is not cased, lowercased otherwise. -/
def pyTitleCase (s : String) : String :=
  (s.data.foldl
    (fun (acc : String × Bool) c =>
      if isCased c then
        (acc.1.push (if acc.2 then c.toLower else c.toUpper), true)
      else (acc.1.push c, false))
    ("", false)).1

/-- Python `\s` on the ASCII fragment. -/
def isPyWs (c : Char) : Bool :=
  c = ' ' || c = '\t' || c = '\n' || c = '\x0d' || c = '\x0b' || c = '\x0c'

/-- Try to match the regex `\s*[-_]\s*` at the head of the character list;
on success return the remainder after the (greedy) match. -/
def sepMatch (cs : List Char) : Option (List Char) :=
  match cs.dropWhile isPyWs with
  | c :: rest => if c = '-' || c = '_' then some (rest.dropWhile isPyWs) else none
  | [] => none

/-- `re.sub(r"\s*[-_]\s*", " ", ·)` scanning engine (fuel-indexed; the fuel
is the input length, which bounds the number of steps since every step
consumes at least one character). -/
def subSepFuel : Nat → List Char → List Char
  | 0, cs => cs
  | _ + 1, [] => []
  | f + 1, c :: cs =>
    match sepMatch (c :: cs) with
    | some rest => ' ' :: subSepFuel f rest
    | none => c :: subSepFuel f cs

/-- `re.sub(r"\s*[-_]\s*", " ", s)`: each single hyphen/underscore,
together with any whitespace around it, becomes one space. -/
def pySubSep (s : String) : String := ⟨subSepFuel s.data.length s.data⟩

/-- `PurePath.stem` of a bare filename: drop the final suffix when the
last dot sits strictly inside the name. -/
def pyStem (name : String) : String :=
  let cs := name.data
  match (cs.enum.filter (fun ic => ic.2 = '.')).reverse.head? with
  | some ic => if 0 < ic.1 ∧ ic.1 < cs.length - 1 then ⟨cs.take ic.1⟩ else name
  | none => name

/-- `extract_title_from_path` (frontmatter_reader.py): stem of the
filename, separators to spaces, then `str.title()`. -/
def extract_title_from_path (path : PyPath) : String :=
  pyTitleCase (pySubSep (pyStem path.name))

/-- A catalog note record (`Note` pydantic model). -/
structure Note where
  note_id : Nat
  path : Option String
  title : Option String
  created : Option String
  description : Option String
deriving DecidableEq, Repr

/-- `parse_note` (frontmatter_reader.py): build a `Note` from a parsed
document, with `or`-chain fallbacks for title / created / description. -/
def parse_note (id : Nat) (path : PyPath) (post : Post) : Note :=
  let titleStr : String :=
    match firstTruthy [pGet post "title", pGet post "Title"] with
    | some v => pyStr v
    | none => extract_title_from_path path
  let createdVal : Option Value :=
    firstTruthy [pGet post "Created", pGet post "created", pGet post "date", pGet post "Date"]
  let descVal : Option Value :=
    match firstTruthy
        [pGet post "Description", pGet post "description", pGet post "Summary", pGet post "summary"] with
    | some v => some v
    | none => pGet post "summary"
  { note_id := id
    path := if pstr path = "" then none else some (pstr path)
    title := if titleStr = "" then none else some titleStr
    created :=
      match createdVal with
      | some (.vDT d) => some (isoDT d)
      | some v => some (pyStr v)
      | none => none
    description := descVal.map pyStr }

/-- A collection of notes produced from one source (`NoteSet` pydantic
model). -/
structure NoteSet where
  generated_by : String
  generated_on : String
  directory : Option String := none
  daily_notes : Bool := false
  total_files : Nat
  notes : List Note
deriving DecidableEq, Repr

/-- The filesystem at one instant: existing files with their raw text, and
existing directories. -/
structure FS where
  files : List (PyPath × String)
  dirs : List PyPath
deriving DecidableEq, Repr

/-- `open(p).read()`: the raw text of an existing file. -/
def FS.lookupFile (fs : FS) (p : PyPath) : Option String := fs.files.lookup p

/-- `Path.exists()`. -/
def FS.pexists (fs : FS) (p : PyPath) : Bool :=
  (fs.lookupFile p).isSome || fs.dirs.contains p

/-- The filenames of the files directly inside directory `d` (the ground
set `Path.glob` patterns select from; empty for a missing directory). -/
def FS.listDir (fs : FS) (d : PyPath) : List String :=
  fs.files.filterMap fun pc =>
    match pc.1, d with
    | .abs cs, .abs ds =>
      if cs.take ds.length = ds ∧ cs.length = ds.length + 1 then (cs.drop ds.length).head? else none
    | .rel cs, .rel ds =>
      if cs.take ds.length = ds ∧ cs.length = ds.length + 1 then (cs.drop ds.length).head? else none
    | _, _ => none

/-- `list(directory.glob("*.md")) + list(directory.glob("*.markdown"))`. -/
def mdNames (fs : FS) (dir : PyPath) : List String :=
  (fs.listDir dir).filter (fun n => strEndsWith n ".md")
    ++ (fs.listDir dir).filter (fun n => strEndsWith n ".markdown")

/-- `sorted(markdown_files)`: stable sort in lexicographic filename order
(all candidates share the directory, so `Path` order is filename order). -/
def sortedMdNames (fs : FS) (dir : PyPath) : List String :=
  (mdNames fs dir).insertionSort (fun a b => lexLe a b = true)

/-- The `for i, file_path in enumerate(sorted(markdown_files))` loop of
`scan_markdown_files`: load and parse each file, skipping (but still
counting in `i`) any file whose load or parse fails. -/
def scanFrom (fm : String → Option Post) (fs : FS) (dir : PyPath) :
    Nat → List String → List Note
  | _, [] => []
  | i, n :: rest =>
    match (fs.lookupFile (dir.join (.rel [n]))).bind fm with
    | some post => parse_note (i + 1) (dir.join (.rel [n])) post :: scanFrom fm fs dir (i + 1) rest
    | none => scanFrom fm fs dir (i + 1) rest

/-- `scan_markdown_files` (frontmatter_reader.py). -/
def scan_markdown_files (fm : String → Option Post) (fs : FS) (dir : PyPath) : List Note :=
  scanFrom fm fs dir 0 (sortedMdNames fs dir)

/-- `LLM_SUMMARY_FILENAME`. -/
def LLM_SUMMARY_FILENAME : String := ".llm_summary.json"

/-- `build_note_set_for_notes` (frontmatter_reader.py). -/
def build_note_set_for_notes (now : String) (notes : List Note) (output_path : PyPath) : NoteSet :=
  { generated_by := "expose_notes"
    generated_on := now
    directory := some (pstr (pyResolve output_path.parent))
    total_files := notes.length
    notes := notes }

/-- `build_note_set_for_source` (frontmatter_reader.py). -/
def build_note_set_for_source (fm : String → Option Post) (fs : FS) (now : String)
    (directory : PyPath) : NoteSet :=
  build_note_set_for_notes now (scan_markdown_files fm fs directory)
    (directory.join (.rel [LLM_SUMMARY_FILENAME]))

/-- A configuration-declared note source (`NoteSource` pydantic model). -/
structure NoteSource where
  source_id : Nat
  name : String
  path : Option String := none
  daily_notes : Bool := false
  description : String
deriving DecidableEq, Repr

/-- The daily-notes policy (`DailyNotesConfig` pydantic model). -/
structure DailyNotesConfig where
  enabled : Bool := false
  days : Nat := 60
  paths : List String := []
deriving DecidableEq, Repr

/-- The validated configuration (`NotesConfig` pydantic model). -/
structure NotesConfig where
  notes : List NoteSource
  vault_path : String := ""
  daily_notes : DailyNotesConfig := {}
deriving DecidableEq, Repr

/-- The synthetic daily `NoteSource` that `get_note_sources` inserts,
given the configuration it is built from. -/
def dailySource (config : NotesConfig) : NoteSource :=
  { source_id := config.notes.length + 1
    name := "Daily Notes"
    daily_notes := true
    description := "My daily notes for the last " ++ toString config.daily_notes.days ++ " days." }

/-- `get_note_sources` (configuration.py).  The Python body aliases
`config.notes` and calls `notes.insert(0, …)` on it, so the function both
returns the list and mutates the caller's configuration in place; the
model returns the produced list together with the post-call state of the
configuration. -/
def get_note_sources (config : NotesConfig) : List NoteSource × NotesConfig :=
  if config.daily_notes.enabled then
    let newNotes := dailySource config :: config.notes
    (newNotes, { config with notes := newNotes })
  else (config.notes, config)

/-- The vault-relative candidate path `raw_path / "{date}.md"` the daily
builder probes for day offset `days_ago`. -/
def dailyRelPath (raw_path : String) (today days_ago : Nat) : PyPath :=
  (strToPath raw_path).join (.rel [fmtDate (today - days_ago) ++ ".md"])

/-- The `Note` the daily builder synthesizes for a successful probe of
sub-path `raw_path` at day offset `days_ago`: note the id is
`days_ago + 1`, independent of how many hits preceded it. -/
def mkDailyNote (raw_path : String) (today days_ago : Nat) : Note :=
  { note_id := days_ago + 1
    path := some (pstr (dailyRelPath raw_path today days_ago))
    title := some ("Daily Note for " ++ fmtDate (today - days_ago))
    created := some (isoDT (today - days_ago))
    description := some "A daily written update that captures thoughts, events, and reflections for the day." }

/-- One iteration of the `build_daily_note_set` loop body for the pair
`(days_ago, raw_path)`: probe `vault / raw_path / "{date}.md"`; a missing
candidate is skipped silently; an existing one is loaded and parsed (the
parse result is discarded, but a load/parse failure raises, modelled as
`Except.error`) and a `Note` with `note_id = days_ago + 1` is appended. -/
def dailyStep (fm : String → Option Post) (vault_path : PyPath) (fs : FS) (today : Nat)
    (acc : Except String (List Note)) (pair : Nat × String) : Except String (List Note) :=
  acc.bind fun ns =>
    let daily_note_path := vault_path.join (dailyRelPath pair.2 today pair.1)
    if !fs.pexists daily_note_path then .ok ns
    else
      match (fs.lookupFile daily_note_path).bind fm with
      | none => .error "frontmatter load failed"
      | some _ => .ok (ns ++ [mkDailyNote pair.2 today pair.1])

/-- `build_daily_note_set` (main.py): `None` when daily notes are
disabled; otherwise the outer loop runs over day offsets `0 .. days - 1`
and the inner loop over the configured sub-paths in declared order. -/
def build_daily_note_set (fm : String → Option Post) (daily_notes_config : DailyNotesConfig)
    (vault_path : PyPath) (fs : FS) (today : Nat) (now : String) :
    Except String (Option NoteSet) :=
  if !daily_notes_config.enabled then .ok none
  else
    let pairs := (List.range daily_notes_config.days).flatMap
      (fun days_ago => daily_notes_config.paths.map (fun p => (days_ago, p)))
    (pairs.foldl (dailyStep fm vault_path fs today) (.ok [])).map fun notes =>
      some { generated_by := "expose_notes"
             generated_on := now
             daily_notes := true
             total_files := notes.length
             notes := notes }

/-- `get_note_sets` (main.py): build one note-set per effective source.
`vault` is the module-level `Path(config.vault_path)`; the guard
`if not config or not notes` is modelled on the passed source list, which
at the call site aliases the module-level `notes` (a pydantic `config` is
always truthy). -/
def get_note_sets (fm : String → Option Post) (fs : FS) (today : Nat) (now : String)
    (config : NotesConfig) (notes_sources : List NoteSource) :
    Except String (List NoteSet) :=
  let vault := strToPath config.vault_path
  if notes_sources.isEmpty then .ok []
  else
    notes_sources.foldl
      (fun acc note =>
        acc.bind fun sets =>
          if note.daily_notes then
            (build_daily_note_set fm config.daily_notes vault fs today now).map fun o =>
              match o with
              | some ns => sets ++ [ns]
              | none => sets
          else
            let path :=
              match note.path with
              | some p => if p = "" then vault else vault.join (strToPath p)
              | none => vault
            .ok (sets ++ [build_note_set_for_source fm fs now path]))
      (.ok [])

/-- The module-level state of main.py after startup: the effective source
list, the built note-sets, and the vault root. -/
structure Catalog where
  sources : List NoteSource
  note_sets : List NoteSet
  vault : PyPath
deriving DecidableEq, Repr

/-- The startup sequence of main.py: `build_configuration` (validation
elided), `get_note_sources` (which mutates `config.notes`), then
`get_note_sets`. -/
def mkCatalog (fm : String → Option Post) (fs : FS) (today : Nat) (now : String)
    (config : NotesConfig) : Except String Catalog :=
  let srcs := (get_note_sources config).1
  (get_note_sets fm fs today now config srcs).map fun sets =>
    { sources := srcs, note_sets := sets, vault := strToPath config.vault_path }

/-- `get_note_source` (main.py): first source with the given id. -/
def get_note_source (cat : Catalog) (source_id : Nat) : Option NoteSource :=
  cat.sources.find? (fun note => note.source_id = source_id)

/-- The `for note_set in note_sets` matching loop at the end of
`get_note_set`: skip daily sets; a reached non-daily set with an unset
directory raises; the first set whose `directory`, parsed back to a path,
equals the expected path is returned. -/
def findDirMatch (path : PyPath) (source_id : Nat) : List NoteSet → Except String NoteSet
  | [] => .error ("Note set not found for source ID " ++ toString source_id ++ ".")
  | ns :: rest =>
    if ns.daily_notes then findDirMatch path source_id rest
    else
      match ns.directory with
      | none => .error ("Note source with ID " ++ toString source_id ++ " does not have a directory set.")
      | some d =>
        if d = "" then .error ("Note source with ID " ++ toString source_id ++ " does not have a directory set.")
        else if strToPath d = path then .ok ns
        else findDirMatch path source_id rest

/-- `get_note_set` (main.py). -/
def get_note_set (cat : Catalog) (fs : FS) (source_id : Nat) : Except String NoteSet :=
  match get_note_source cat source_id with
  | none => .error ("Note source with ID " ++ toString source_id ++ " not found.")
  | some source =>
    match (if source.daily_notes then cat.note_sets.find? (fun ns => ns.daily_notes) else none) with
    | some ns => .ok ns
    | none =>
      match source.path with
      | none => .error ("Note source with ID " ++ toString source_id ++ " does not have a valid path.")
      | some p =>
        if p = "" then .error ("Note source with ID " ++ toString source_id ++ " does not have a valid path.")
        else
          let path := cat.vault.join (strToPath p)
          if !fs.pexists path then
            .error ("Note source path " ++ p ++ " does not exist in the vault.")
          else findDirMatch path source_id cat.note_sets

/-- `get_note` (main.py): resolve the note-set, then linear-scan its notes
for the id. -/
def get_note (cat : Catalog) (fs : FS) (source_id : Nat) (note_id : Nat) : Except String Note :=
  (get_note_set cat fs source_id).bind fun note_set =>
    match note_set.notes.find? (fun n => n.note_id = note_id) with
    | some n => .ok n
    | none => .error ("Note with ID " ++ toString note_id ++ " not found in note set for source ID "
        ++ toString source_id ++ ".")

/-- `get_note_text` (main.py): resolve the note, require a path, resolve
it against the vault, require the file on disk, then load it fresh and
return the frontmatter-stripped body. -/
def get_note_text (fm : String → Option Post) (cat : Catalog) (fs : FS)
    (source_id : Nat) (note_id : Nat) : Except String String :=
  (get_note cat fs source_id note_id).bind fun note =>
    match note.path with
    | none => .error ("Note path is not set for note ID " ++ toString note_id ++ ".")
    | some p =>
      if p = "" then .error ("Note path is not set for note ID " ++ toString note_id ++ ".")
      else
        let note_path := cat.vault.join (strToPath p)
        if !fs.pexists note_path then .error ("Note file does not exist: " ++ p)
        else
          match (fs.lookupFile note_path).bind fm with
          | none => .error "frontmatter load failed"
          | some post => .ok post.content

/-! ### Spec-side definitions (written from the specification's words, for
comparison against the embedded code) and concrete instances used by the
theorems below. -/

/-- First key of the list whose value is truthy, scanning left to right
(the selection the code's `or`-chains actually implement). -/
def lookupTruthy (post : Post) : List String → Option Value
  | [] => none
  | k :: ks =>
    match pGet post k with
    | some v => if truthy v then some v else lookupTruthy post ks
    | none => lookupTruthy post ks

/-- First key of the list that is present in the header, scanning left to
right (the selection the specification describes: "first present key
wins"). -/
def lookupPresent (post : Post) : List String → Option Value
  | [] => none
  | k :: ks =>
    match pGet post k with
    | some v => some v
    | none => lookupPresent post ks

/-- Render a resolved `created` value: a native timestamp as ISO-8601,
any other value as its string form, absence as null. -/
def renderCreated : Option Value → Option String
  | some (.vDT d) => some (isoDT d)
  | some v => some (pyStr v)
  | none => none

/-- Spec-side `created` resolution: keys `Created`, `created`, `date`,
`Date` in order, the first *present* key winning. -/
def specCreated (post : Post) : Option String :=
  renderCreated (lookupPresent post ["Created", "created", "date", "Date"])

/-- Spec-side `title` resolution: a present `title`/`Title` header value
is returned verbatim (in string form), ignoring the filename; otherwise
the title is derived from the filename. -/
def specTitle (post : Post) (path : PyPath) : Option String :=
  match lookupPresent post ["title", "Title"] with
  | some v => some (pyStr v)
  | none => some (extract_title_from_path path)

/-- An empty string becomes `None` (the `x or None` idiom). -/
def strOrNone (s : String) : Option String := if s = "" then none else some s

/-- A simple concrete frontmatter parser for witnesses: every text parses
to an empty header with the text itself as body, except the marker text
"BAD", which fails to parse. -/
def fmSimple : String → Option Post :=
  fun s => if s = "BAD" then none else some ⟨[], s⟩

/-- Concrete filesystem: the vault `/v` contains sub-path `p` whose only
daily file is `99.md` (yesterday relative to `today = 100`). -/
def fsOneHit : FS :=
  ⟨[(.abs ["v", "p", "99.md"], "hello")], [.abs ["v"], .abs ["v", "p"]]⟩

/-- Concrete filesystem: sub-paths `p` and `q` both hold a file for day
100 (today). -/
def fsTwoPaths : FS :=
  ⟨[(.abs ["v", "p", "100.md"], "x"), (.abs ["v", "q", "100.md"], "y")],
   [.abs ["v"], .abs ["v", "p"], .abs ["v", "q"]]⟩

/-- Concrete configuration: one directory source with id 1 at sub-path
`x`, daily notes disabled. -/
def cfgDirOnly : NotesConfig :=
  { notes := [{ source_id := 1, name := "S", path := some "x", description := "d" }]
    vault_path := "/v"
    daily_notes := { enabled := false, days := 3, paths := [] } }

/-- Concrete filesystem for `cfgDirOnly` in which the vault exists but
the configured sub-directory `x` does not. -/
def fsNoSourceDir : FS := ⟨[], [.abs ["v"]]⟩

/-- Concrete filesystem for `cfgDirOnly` in which the sub-directory `x`
exists and holds the markdown files `b.md`, `a.md`, `c.markdown` and a
non-markdown file `d.txt`. -/
def fsThreeFiles : FS :=
  ⟨[(.abs ["v", "x", "b.md"], "B"), (.abs ["v", "x", "a.md"], "A"),
    (.abs ["v", "x", "c.markdown"], "C"), (.abs ["v", "x", "d.txt"], "D")],
   [.abs ["v"], .abs ["v", "x"]]⟩

/-- Concrete filesystem for `cfgDirOnly` in which the sub-directory `x`
holds two parseable markdown files and one (`bad.md`) whose parse fails
under `fmSimple`. -/
def fsOneBad : FS :=
  ⟨[(.abs ["v", "x", "a.md"], "A"), (.abs ["v", "x", "bad.md"], "BAD"),
    (.abs ["v", "x", "c.md"], "C")],
   [.abs ["v"], .abs ["v", "x"]]⟩

/-- Concrete configuration with two sources whose ids (3 and 5) are
pairwise distinct and positive but not dense, daily notes enabled. -/
def cfgSparseIds : NotesConfig :=
  { notes := [{ source_id := 3, name := "A", path := some "a", description := "da" },
              { source_id := 5, name := "B", path := some "b", description := "db" }]
    vault_path := "/v"
    daily_notes := { enabled := true, days := 2, paths := ["p"] } }

/-- Concrete configuration with one source and daily notes enabled. -/
def cfgDailyOn : NotesConfig :=
  { notes := [{ source_id := 1, name := "S", path := some "x", description := "d" }]
    vault_path := "/v"
    daily_notes := { enabled := true, days := 3, paths := ["p"] } }

/-- Concrete directory-backed source with id 1 at sub-path `x`. -/
def wSrcDir : NoteSource :=
  { source_id := 1, name := "S", path := some "x", description := "d" }

/-- Concrete synthetic daily source with id 2. -/
def wSrcDaily : NoteSource :=
  { source_id := 2, name := "Daily Notes", daily_notes := true, description := "dd" }

/-- Concrete note backed by file `x/a.md`. -/
def wNote : Note :=
  { note_id := 1, path := some "x/a.md", title := some "A", created := none, description := none }

/-- Concrete directory-derived note-set for `/v/x` holding `wNote`. -/
def wSetDir : NoteSet :=
  { generated_by := "expose_notes", generated_on := "T", directory := some "/v/x"
    total_files := 1, notes := [wNote] }

/-- Concrete (empty) daily note-set. -/
def wSetDaily : NoteSet :=
  { generated_by := "expose_notes", generated_on := "T", daily_notes := true
    total_files := 0, notes := [] }

/-- Concrete catalog over vault `/v` with the daily source first. -/
def wCat : Catalog :=
  { sources := [wSrcDaily, wSrcDir], note_sets := [wSetDaily, wSetDir], vault := .abs ["v"] }

/-- Concrete filesystem matching `wCat`: the vault `/v` with directory
`x` holding `a.md` (raw text "A"). -/
def wFs : FS :=
  ⟨[(.abs ["v", "x", "a.md"], "A")], [.abs ["v"], .abs ["v", "x"]]⟩

/-! ### Theorems -/

/-- A Python `or`-chain over header lookups selects the first key (in
list order) whose value is truthy. -/
theorem firstTruthy_map_pGet (post : Post) (ks : List String) :
    firstTruthy (ks.map (pGet post)) = lookupTruthy post ks := by
  induction ks with
  | nil => rfl
  | cons k ks ih =>
    show firstTruthy (pGet post k :: ks.map (pGet post)) = _
    cases h : pGet post k with
    | none => simpa [firstTruthy, lookupTruthy, h] using ih
    | some v =>
      cases hv : truthy v <;> simp [firstTruthy, lookupTruthy, h, hv, ih]

/-- C8 counterexample: in a header carrying both `Created` (with the
empty-string value) and `date`, the code resolves `created` to the `date`
value, while the specified first-present-key rule resolves it to the
`Created` value; the two disagree. -/
theorem created_counterexample :
    (parse_note 1 (.rel ["n.md"]) ⟨[("Created", .vStr ""), ("date", .vStr "2020-01-01")], ""⟩).created
        = some "2020-01-01"
      ∧ specCreated ⟨[("Created", .vStr ""), ("date", .vStr "2020-01-01")], ""⟩ = some ""
      ∧ some "2020-01-01" ≠ (some "" : Option String) := by
  refine ⟨rfl, rfl, by decide⟩

/-- C8 amended: the Metadata Extractor resolves `created` by checking the
keys `Created`, `created`, `date`, `Date` in that order, the first key
whose value is *truthy* (non-empty, non-zero, non-false) winning; a
native timestamp renders as ISO-8601, any other truthy value as its
string form, and the result is null when no key holds a truthy value. -/
theorem created_resolution_amended (id : Nat) (path : PyPath) (post : Post) :
    (parse_note id path post).created
      = renderCreated (lookupTruthy post ["Created", "created", "date", "Date"]) := by
  have h := firstTruthy_map_pGet post ["Created", "created", "date", "Date"]
  simp only [List.map] at h
  simp only [parse_note, h]
  cases lookupTruthy post ["Created", "created", "date", "Date"] with
  | none => rfl
  | some v => cases v <;> rfl

/-- C9 counterexample: with the `title` header key set to the empty
string, the code ignores the header value and derives the title from the
filename (`x.md` gives `X`), while the specified rule returns the header
value verbatim; the two disagree. -/
theorem title_counterexample :
    (parse_note 1 (.rel ["x.md"]) ⟨[("title", .vStr "")], "b"⟩).title = some "X"
      ∧ pGet ⟨[("title", .vStr "")], "b"⟩ "title" = some (.vStr "")
      ∧ specTitle ⟨[("title", .vStr "")], "b"⟩ (.rel ["x.md"]) = some ""
      ∧ some "X" ≠ (some "" : Option String) := by
  refine ⟨rfl, rfl, rfl, by decide⟩

/-- C9 amended: a `title`/`Title` header value is used (in string form,
empty becoming null) only when it is truthy (non-empty); otherwise the
title is derived from the filename by taking the stem, replacing each
single hyphen/underscore together with its surrounding whitespace by one
space (a run of k separators yields k spaces), and title-casing; in
particular `example_file.md` yields "Example File" while `a--b.md` yields
"A  B" with two spaces. -/
theorem title_resolution_amended :
    (∀ (id : Nat) (path : PyPath) (post : Post),
      (parse_note id path post).title
        = match lookupTruthy post ["title", "Title"] with
          | some v => strOrNone (pyStr v)
          | none => strOrNone (extract_title_from_path path))
      ∧ extract_title_from_path (.rel ["example_file.md"]) = "Example File"
      ∧ extract_title_from_path (.rel ["a--b.md"]) = "A  B" := by
  refine ⟨fun id path post => ?_, rfl, rfl⟩
  have h := firstTruthy_map_pGet post ["title", "Title"]
  simp only [List.map] at h
  simp only [parse_note, h]
  cases lookupTruthy post ["title", "Title"] with
  | none => rfl
  | some v => rfl

/-- When every listed file loads and parses, the scan loop starting at
index `i` assigns the consecutive ids `i+1, i+2, …`. -/
theorem scanFrom_map_id_all_ok (fm : String → Option Post) (fs : FS) (dir : PyPath)
    (l : List String) (i : Nat)
    (h : ∀ n ∈ l, ((fs.lookupFile (dir.join (.rel [n]))).bind fm).isSome) :
    (scanFrom fm fs dir i l).map Note.note_id = List.range' (i + 1) l.length := by
  induction l generalizing i with
  | nil => rfl
  | cons n rest ih =>
    obtain ⟨post, hp⟩ := Option.isSome_iff_exists.mp (h n (by simp))
    simp [scanFrom, hp, parse_note, List.range',
      ih (i + 1) (fun m hm => h m (by simp [hm]))]

/-- The scan loop produces one note per listed file that loads and
parses. -/
theorem scanFrom_length (fm : String → Option Post) (fs : FS) (dir : PyPath)
    (l : List String) (i : Nat) :
    (scanFrom fm fs dir i l).length
      = (l.filter (fun n => ((fs.lookupFile (dir.join (.rel [n]))).bind fm).isSome)).length := by
  induction l generalizing i with
  | nil => rfl
  | cons n rest ih =>
    cases hp : (fs.lookupFile (dir.join (.rel [n]))).bind fm with
    | none => simp [scanFrom, hp, List.filter, ih (i + 1)]
    | some post => simp [scanFrom, hp, List.filter, ih (i + 1)]

/-- Every note the scan loop emits from start index `i` has id above
`i`. -/
theorem scanFrom_id_gt (fm : String → Option Post) (fs : FS) (dir : PyPath)
    (l : List String) (i : Nat) :
    ∀ n ∈ scanFrom fm fs dir i l, i < n.note_id := by
  induction l generalizing i with
  | nil => intro n hn; cases hn
  | cons m rest ih =>
    intro n hn
    rcases hp : (fs.lookupFile (dir.join (.rel [m]))).bind fm with _ | post
    · rw [scanFrom, hp] at hn
      exact Nat.lt_of_succ_lt (ih (i + 1) n hn)
    · rw [scanFrom, hp] at hn
      rcases List.mem_cons.mp hn with h1 | h1
      · simp [h1, parse_note]
      · exact Nat.lt_of_succ_lt (ih (i + 1) n h1)

/-- The ids the scan loop emits are strictly increasing. -/
theorem scanFrom_id_pairwise (fm : String → Option Post) (fs : FS) (dir : PyPath)
    (l : List String) (i : Nat) :
    (scanFrom fm fs dir i l).Pairwise (fun a b => a.note_id < b.note_id) := by
  induction l generalizing i with
  | nil => exact List.Pairwise.nil
  | cons m rest ih =>
    rcases hp : (fs.lookupFile (dir.join (.rel [m]))).bind fm with _ | post
    · rw [scanFrom, hp]; exact ih (i + 1)
    · rw [scanFrom, hp]
      refine List.Pairwise.cons (fun b hb => ?_) (ih (i + 1))
      have := scanFrom_id_gt fm fs dir rest (i + 1) b hb
      simpa [parse_note] using this

/-- C10: the Directory Note-Set Builder sorts the candidate `.md` and
`.markdown` files by filename lexicographically and then assigns the
sequential ids 1, 2, … in that order (shown for any directory whose
listed candidates all parse), and concretely files `b.md`, `a.md`,
`c.markdown` receive ids a.md = 1, b.md = 2, c.markdown = 3. -/
theorem directory_scan_ordering :
    (∀ (fm : String → Option Post) (fs : FS) (dir : PyPath),
        (∀ n ∈ sortedMdNames fs dir, ((fs.lookupFile (dir.join (.rel [n]))).bind fm).isSome) →
        (scan_markdown_files fm fs dir).map Note.note_id
          = List.range' 1 (sortedMdNames fs dir).length)
      ∧ (build_note_set_for_source fmSimple fsThreeFiles "T" (.abs ["v", "x"])).notes.map
            (fun n => (n.note_id, n.path))
          = [(1, some "/v/x/a.md"), (2, some "/v/x/b.md"), (3, some "/v/x/c.markdown")] := by
  refine ⟨fun fm fs dir h => ?_, by decide⟩
  exact scanFrom_map_id_all_ok fm fs dir (sortedMdNames fs dir) 0 h

/-- C10 witness: the general part of `directory_scan_ordering` applied to
the concrete three-file directory. -/
theorem directory_scan_ordering_witness :
    (scan_markdown_files fmSimple fsThreeFiles (.abs ["v", "x"])).map Note.note_id
      = List.range' 1 (sortedMdNames fsThreeFiles (.abs ["v", "x"])).length :=
  directory_scan_ordering.1 fmSimple fsThreeFiles (.abs ["v", "x"]) (by decide)

/-- C4: a directory whose sorted candidate list contains exactly N files
that load and parse (any others failing) yields a note-set with exactly N
notes, and its `total_files` equals the length of its notes list. -/
theorem directory_scan_resilience (fm : String → Option Post) (fs : FS) (now : String)
    (dir : PyPath) (N : Nat)
    (h : ((sortedMdNames fs dir).filter
        (fun n => ((fs.lookupFile (dir.join (.rel [n]))).bind fm).isSome)).length = N) :
    (build_note_set_for_source fm fs now dir).notes.length = N
      ∧ (build_note_set_for_source fm fs now dir).total_files
          = (build_note_set_for_source fm fs now dir).notes.length := by
  constructor
  · rw [← h]
    exact scanFrom_length fm fs dir (sortedMdNames fs dir) 0
  · rfl

/-- C4 witness: a directory with two parseable files and one unparsable
file (`bad.md`) has three candidates yet yields exactly two notes, with
`total_files` = 2. -/
theorem directory_scan_resilience_witness :
    (sortedMdNames fsOneBad (.abs ["v", "x"])).length = 3
      ∧ (build_note_set_for_source fmSimple fsOneBad "T" (.abs ["v", "x"])).notes.length = 2
      ∧ (build_note_set_for_source fmSimple fsOneBad "T" (.abs ["v", "x"])).total_files
          = (build_note_set_for_source fmSimple fsOneBad "T" (.abs ["v", "x"])).notes.length :=
  ⟨by decide,
   (directory_scan_resilience fmSimple fsOneBad "T" (.abs ["v", "x"]) 2 (by decide)).1,
   (directory_scan_resilience fmSimple fsOneBad "T" (.abs ["v", "x"]) 2 (by decide)).2⟩

/-- A path that is a file of the filesystem exists. -/
theorem pexists_of_lookup (fs : FS) (p : PyPath) (raw : String)
    (h : fs.lookupFile p = some raw) : fs.pexists p = true := by
  simp [FS.pexists, h]

/-- A daily probe whose candidate file is absent leaves the accumulator
unchanged. -/
theorem dailyStep_skip (fm : String → Option Post) (vault : PyPath) (fs : FS) (today : Nat)
    (ns0 : List Note) (q : Nat × String)
    (h : fs.pexists (vault.join (dailyRelPath q.2 today q.1)) = false) :
    dailyStep fm vault fs today (.ok ns0) q = .ok ns0 := by
  simp [dailyStep, Except.bind, h]

/-- A daily probe whose candidate file is present and parses appends the
synthesized note. -/
theorem dailyStep_hit (fm : String → Option Post) (vault : PyPath) (fs : FS) (today : Nat)
    (ns0 : List Note) (q : Nat × String) (post : Post)
    (h : (fs.lookupFile (vault.join (dailyRelPath q.2 today q.1))).bind fm = some post) :
    dailyStep fm vault fs today (.ok ns0) q = .ok (ns0 ++ [mkDailyNote q.2 today q.1]) := by
  rcases hl : fs.lookupFile (vault.join (dailyRelPath q.2 today q.1)) with _ | raw
  · rw [hl] at h; cases h
  · simp [dailyStep, Except.bind, pexists_of_lookup fs _ raw hl, h]

/-- A daily probe step is skip, append, or parse-failure. -/
theorem dailyStep_cases (fm : String → Option Post) (vault : PyPath) (fs : FS) (today : Nat)
    (ns0 : List Note) (q : Nat × String) :
    dailyStep fm vault fs today (.ok ns0) q = .ok ns0
      ∨ dailyStep fm vault fs today (.ok ns0) q = .ok (ns0 ++ [mkDailyNote q.2 today q.1])
      ∨ dailyStep fm vault fs today (.ok ns0) q = .error "frontmatter load failed" := by
  cases h1 : fs.pexists (vault.join (dailyRelPath q.2 today q.1)) with
  | false => exact .inl (dailyStep_skip fm vault fs today ns0 q h1)
  | true =>
    rcases h2 : (fs.lookupFile (vault.join (dailyRelPath q.2 today q.1))).bind fm with _ | post
    · right; right; simp [dailyStep, Except.bind, h1, h2]
    · exact .inr (.inl (dailyStep_hit fm vault fs today ns0 q post h2))

/-- A raised daily-loop exception propagates through the rest of the
loop. -/
theorem dailyFold_error (fm : String → Option Post) (vault : PyPath) (fs : FS) (today : Nat)
    (e : String) (P : List (Nat × String)) :
    P.foldl (dailyStep fm vault fs today) (.error e) = .error e := by
  induction P with
  | nil => rfl
  | cons q P ih => exact ih

/-- Every note the daily loop accumulates has its id in `1 .. days`,
provided every processed day offset is below `days`. -/
theorem dailyFold_bound (fm : String → Option Post) (vault : PyPath) (fs : FS)
    (today days : Nat) (P : List (Nat × String)) :
    ∀ ns0 ns : List Note, (∀ q ∈ P, q.1 < days) →
      (∀ n ∈ ns0, 1 ≤ n.note_id ∧ n.note_id ≤ days) →
      P.foldl (dailyStep fm vault fs today) (.ok ns0) = .ok ns →
      ∀ n ∈ ns, 1 ≤ n.note_id ∧ n.note_id ≤ days := by
  induction P with
  | nil =>
    intro ns0 ns _ h0 hf
    obtain rfl : ns0 = ns := by injection hf
    exact h0
  | cons q P ih =>
    intro ns0 ns hP h0 hf
    rcases dailyStep_cases fm vault fs today ns0 q with hc | hc | hc
    · rw [List.foldl_cons, hc] at hf
      exact ih ns0 ns (fun q' h' => hP q' (by simp [h'])) h0 hf
    · rw [List.foldl_cons, hc] at hf
      refine ih _ ns (fun q' h' => hP q' (by simp [h'])) ?_ hf
      intro n hn
      rcases List.mem_append.mp hn with h | h
      · exact h0 n h
      · rcases List.mem_singleton.mp h with rfl
        simpa [mkDailyNote] using hP q (by simp)
    · rw [List.foldl_cons, hc, dailyFold_error] at hf
      cases hf

/-- With a single configured sub-path, a run of day offsets none of whose
candidate files exist contributes nothing. -/
theorem dailyFold_skip (fm : String → Option Post) (vault : PyPath) (fs : FS) (today : Nat)
    (p : String) (L : List Nat) :
    ∀ ns0 : List Note, (∀ d ∈ L, fs.pexists (vault.join (dailyRelPath p today d)) = false) →
      (L.map (fun d => (d, p))).foldl (dailyStep fm vault fs today) (.ok ns0) = .ok ns0 := by
  induction L with
  | nil => intro ns0 _; rfl
  | cons d L ih =>
    intro ns0 h
    rw [List.map_cons, List.foldl_cons, dailyStep_skip fm vault fs today ns0 (d, p) (h d (by simp))]
    exact ih ns0 (fun d' h' => h d' (by simp [h']))

/-- With a single configured sub-path and exactly one day offset `d0`
whose candidate file exists (and parses), the daily loop over any
duplicate-free run of day offsets yields exactly the one synthesized note
for `d0`, carrying id `d0 + 1`. -/
theorem dailyFold_one (fm : String → Option Post) (vault : PyPath) (fs : FS) (today : Nat)
    (p : String) (d0 : Nat) (L : List Nat)
    (hhit : ((fs.lookupFile (vault.join (dailyRelPath p today d0))).bind fm).isSome) :
    ∀ ns0 : List Note, L.Nodup →
      (∀ d ∈ L, d ≠ d0 → fs.pexists (vault.join (dailyRelPath p today d)) = false) →
      (L.map (fun d => (d, p))).foldl (dailyStep fm vault fs today) (.ok ns0)
        = .ok (ns0 ++ if d0 ∈ L then [mkDailyNote p today d0] else []) := by
  induction L with
  | nil => intro ns0 _ _; simp
  | cons d L ih =>
    intro ns0 hnd hskip
    by_cases hd : d = d0
    · subst hd
      obtain ⟨post, hp⟩ := Option.isSome_iff_exists.mp hhit
      rw [List.map_cons, List.foldl_cons, dailyStep_hit fm vault fs today ns0 (d, p) post hp]
      have hnot : d ∉ L := (List.nodup_cons.mp hnd).1
      rw [dailyFold_skip fm vault fs today p L _
        (fun d' h' => hskip d' (by simp [h']) (fun hne => hnot (hne ▸ h')))]
      simp
    · rw [List.map_cons, List.foldl_cons,
        dailyStep_skip fm vault fs today ns0 (d, p) (hskip d (by simp) hd)]
      rw [ih ns0 (List.nodup_cons.mp hnd).2 (fun d' h' hne => hskip d' (by simp [h']) hne)]
      have hiff : (d0 ∈ d :: L) ↔ (d0 ∈ L) := by
        constructor
        · intro h
          rcases List.mem_cons.mp h with h | h
          · exact absurd h.symm hd
          · exact h
        · exact fun h => List.mem_cons.mpr (Or.inr h)
      simp only [hiff]

/-- The pair list the daily builder iterates, for a single configured
sub-path, is the day-offset range paired with that sub-path. -/
theorem daily_pairs_single (p : String) (L : List Nat) :
    L.flatMap (fun d => ([p] : List String).map (fun q => (d, q)))
      = L.map (fun d => (d, p)) := by
  induction L with
  | nil => rfl
  | cons d L ih =>
    show (d, p) :: L.flatMap (fun d => ([p] : List String).map (fun q => (d, q)))
        = (d, p) :: L.map (fun d => (d, p))
    rw [ih]

/-- C1 counterexample: with `days = 3`, one configured sub-path `p`, and
only yesterday's candidate file on disk (`today = 100`, file `99.md`),
the daily note-set has exactly one note but its `note_id` is 2, not 1:
the id is the day offset plus one, not a sequential hit counter. -/
theorem daily_note_id_counterexample :
    (build_daily_note_set fmSimple ⟨true, 3, ["p"]⟩ (.abs ["v"]) fsOneHit 100 "T").map
        (Option.map fun ns => (ns.total_files, ns.notes.map Note.note_id))
      = .ok (some (1, [2]))
      ∧ (2 : Nat) ≠ 1 :=
  ⟨rfl, by decide⟩

/-- C1 amended: for an enabled daily-notes policy with one configured
sub-path, `days` day offsets, and exactly one day offset `d0` whose
candidate file exists on disk (and parses), the daily note-set has
exactly one note, and that note's `note_id` equals `d0 + 1` — the 1-based
day offset of the hit, which is 1 exactly when the present file is
today's — not a hit-counter position. -/
theorem daily_note_id_amended (fm : String → Option Post) (fs : FS) (vault : PyPath)
    (p now : String) (days today d0 : Nat) (hd0 : d0 < days)
    (hhit : ((fs.lookupFile (vault.join (dailyRelPath p today d0))).bind fm).isSome)
    (hmiss : ∀ d < days, d ≠ d0 → fs.pexists (vault.join (dailyRelPath p today d)) = false) :
    (build_daily_note_set fm ⟨true, days, [p]⟩ vault fs today now).map
        (Option.map fun ns => (ns.total_files, ns.notes.map Note.note_id))
      = .ok (some (1, [d0 + 1])) := by
  have hpairs := daily_pairs_single p (List.range days)
  have hfold := dailyFold_one fm vault fs today p d0 (List.range days) hhit []
    (List.nodup_range days)
    (fun d h hne => hmiss d (List.mem_range.mp h) hne)
  rw [if_pos (List.mem_range.mpr hd0)] at hfold
  simp only [build_daily_note_set, Bool.not_true, Bool.false_eq_true, if_false, hpairs, hfold]
  simp [mkDailyNote, Except.map]

/-- C1 witness: the amended statement at the concrete one-hit scenario
(`days = 3`, sub-path `p`, only day offset 1 present). -/
theorem daily_note_id_amended_witness :
    (build_daily_note_set fmSimple ⟨true, 3, ["p"]⟩ (.abs ["v"]) fsOneHit 100 "T").map
        (Option.map fun ns => (ns.total_files, ns.notes.map Note.note_id))
      = .ok (some (1, [1 + 1])) :=
  daily_note_id_amended fmSimple fsOneHit (.abs ["v"]) "p" "T" 3 100 1 (by decide) (by decide)
    (by decide)

/-- C2 counterexample: with two configured sub-paths `p` and `q` both
holding a file for today's date, both files become separate notes but the
two notes share `note_id = 1` — the daily note-set's ids are not pairwise
distinct. -/
theorem note_id_duplicate_counterexample :
    (build_daily_note_set fmSimple ⟨true, 3, ["p", "q"]⟩ (.abs ["v"]) fsTwoPaths 100 "T").map
        (Option.map fun ns => (ns.total_files, ns.notes.map Note.note_id))
      = .ok (some (2, [1, 1]))
      ∧ ¬ ([1, 1] : List Nat).Nodup :=
  ⟨rfl, by decide⟩

/-- C2 amended: `note_id` values are pairwise distinct within every
directory-derived note-set; within a daily note-set each `note_id` is the
owning day offset plus one (so it lies in `1 .. days`), and two
configured paths hitting the same date yield two distinct notes sharing
one id. -/
theorem note_id_uniqueness_amended :
    (∀ (fm : String → Option Post) (fs : FS) (now : String) (dir : PyPath),
        ((build_note_set_for_source fm fs now dir).notes.map Note.note_id).Nodup)
      ∧ (∀ (fm : String → Option Post) (cfg : DailyNotesConfig) (vault : PyPath) (fs : FS)
          (today : Nat) (now : String) (ns : NoteSet),
          build_daily_note_set fm cfg vault fs today now = .ok (some ns) →
          ∀ n ∈ ns.notes, 1 ≤ n.note_id ∧ n.note_id ≤ cfg.days) := by
  constructor
  · intro fm fs now dir
    have hp := scanFrom_id_pairwise fm fs dir (sortedMdNames fs dir) 0
    exact List.pairwise_map.mpr (hp.imp fun h => Nat.ne_of_lt h)
  · intro fm cfg vault fs today now ns hns
    cases he : cfg.enabled with
    | false =>
      rw [build_daily_note_set, he] at hns
      cases hns
    | true =>
      rw [build_daily_note_set, he] at hns
      simp only [Bool.not_true, Bool.false_eq_true, if_false] at hns
      rcases hfold : (((List.range cfg.days).flatMap
          (fun days_ago => cfg.paths.map (fun p => (days_ago, p)))).foldl
            (dailyStep fm vault fs today) (.ok [])) with e | notes
      · rw [hfold] at hns
        cases hns
      · rw [hfold] at hns
        simp only [Except.map] at hns
        have hnotes : ns.notes = notes := by
          cases hns
          rfl
        rw [hnotes]
        refine dailyFold_bound fm vault fs today cfg.days _ [] notes ?_ (by intro n h; cases h)
          hfold
        intro q hq
        rcases List.mem_flatMap.mp hq with ⟨d, hd, hmem⟩
        rcases List.mem_map.mp hmem with ⟨pp, _, rfl⟩
        exact List.mem_range.mp hd

/-- C2 witness: both halves of the amended statement at concrete inputs —
the three-file directory gives distinct ids, and the single note of the
one-hit daily scenario has its id within `1 .. 3`. -/
theorem note_id_uniqueness_amended_witness :
    ((build_note_set_for_source fmSimple fsThreeFiles "T" (.abs ["v", "x"])).notes.map
        Note.note_id).Nodup
      ∧ (1 ≤ (mkDailyNote "p" 100 1).note_id ∧ (mkDailyNote "p" 100 1).note_id ≤ 3) :=
  ⟨note_id_uniqueness_amended.1 fmSimple fsThreeFiles "T" (.abs ["v", "x"]),
   note_id_uniqueness_amended.2 fmSimple ⟨true, 3, ["p"]⟩ (.abs ["v"]) fsOneHit 100 "T"
     { generated_by := "expose_notes", generated_on := "T", directory := none,
       daily_notes := true, total_files := 1, notes := [mkDailyNote "p" 100 1] }
     rfl (mkDailyNote "p" 100 1) (by simp)⟩

/-- C5 counterexample: a configuration with pairwise-distinct, positive
but non-dense ids 3 and 5 gets a synthetic daily source with id
`configured_count + 1 = 3`, so the effective list's ids `[3, 3, 5]` are
not pairwise distinct. -/
theorem source_id_collision_counterexample :
    (get_note_sources cfgSparseIds).1.map NoteSource.source_id = [3, 3, 5]
      ∧ ¬ ([3, 3, 5] : List Nat).Nodup
      ∧ (cfgSparseIds.notes.map NoteSource.source_id).Nodup :=
  ⟨rfl, by decide, by decide⟩

/-- C5 amended: with daily notes enabled, the effective source list is
the synthetic daily source (id `configured_count + 1`) prepended to the
configured list — so the daily source is listed first — and its ids are
pairwise distinct provided `configured_count + 1` does not collide with a
configured id (which non-dense ids may violate); with daily notes
disabled, the list is the configured one. -/
theorem effective_source_list_amended (config : NotesConfig) :
    (config.daily_notes.enabled = true →
        (get_note_sources config).1 = dailySource config :: config.notes
          ∧ (get_note_sources config).1.head?.map NoteSource.daily_notes = some true
          ∧ ((config.notes.map NoteSource.source_id).Nodup →
              (config.notes.length + 1) ∉ config.notes.map NoteSource.source_id →
              ((get_note_sources config).1.map NoteSource.source_id).Nodup))
      ∧ (config.daily_notes.enabled = false → (get_note_sources config).1 = config.notes) := by
  constructor
  · intro he
    refine ⟨by simp [get_note_sources, he], by simp [get_note_sources, he, dailySource], ?_⟩
    intro hnd hmem
    simp only [get_note_sources, he, if_true, List.map_cons]
    exact List.nodup_cons.mpr ⟨hmem, hnd⟩
  · intro he
    simp [get_note_sources, he]

/-- C5 witness: the amended statement at a one-source configuration with
id 1, where the synthetic id 2 collides with nothing. -/
theorem effective_source_list_amended_witness :
    (get_note_sources cfgDailyOn).1 = dailySource cfgDailyOn :: cfgDailyOn.notes
      ∧ (get_note_sources cfgDailyOn).1.head?.map NoteSource.daily_notes = some true
      ∧ ((get_note_sources cfgDailyOn).1.map NoteSource.source_id).Nodup :=
  have h := (effective_source_list_amended cfgDailyOn).1 rfl
  ⟨h.1, h.2.1, h.2.2 (by decide) (by decide)⟩

/-- C6 counterexample: with daily notes enabled, `get_note_sources`
leaves the caller's configuration with a changed notes list (the
synthetic daily entry has been inserted in place): after the call the
stored list has length 2 where the original had length 1. -/
theorem get_note_sources_mutation_counterexample :
    (get_note_sources cfgDailyOn).2.notes ≠ cfgDailyOn.notes
      ∧ (get_note_sources cfgDailyOn).2.notes.length = 2
      ∧ cfgDailyOn.notes.length = 1 :=
  ⟨by decide, rfl, rfl⟩

/-- C6 amended: `get_note_sources` is not pure — with daily notes enabled
it inserts the synthetic daily source at the front of the caller's stored
notes list in place and returns that same mutated list; with daily notes
disabled it returns the stored list unchanged. -/
theorem get_note_sources_mutation_amended (config : NotesConfig) :
    (config.daily_notes.enabled = true →
        (get_note_sources config).2.notes = dailySource config :: config.notes
          ∧ (get_note_sources config).1 = (get_note_sources config).2.notes)
      ∧ (config.daily_notes.enabled = false →
        (get_note_sources config).2 = config ∧ (get_note_sources config).1 = config.notes) := by
  constructor <;> intro he <;> simp [get_note_sources, he]

/-- C6 witness: the amended statement at a daily-enabled and at a
daily-disabled configuration. -/
theorem get_note_sources_mutation_amended_witness :
    ((get_note_sources cfgDailyOn).2.notes = dailySource cfgDailyOn :: cfgDailyOn.notes
        ∧ (get_note_sources cfgDailyOn).1 = (get_note_sources cfgDailyOn).2.notes)
      ∧ ((get_note_sources cfgDirOnly).2 = cfgDirOnly
        ∧ (get_note_sources cfgDirOnly).1 = cfgDirOnly.notes) :=
  ⟨(get_note_sources_mutation_amended cfgDailyOn).1 rfl,
   (get_note_sources_mutation_amended cfgDirOnly).2 rfl⟩

/-- A list whose filtering is the singleton `[a]` has `a` as its first
satisfying element. -/
theorem find?_of_filter_singleton {α : Type} (p : α → Bool) (l : List α) (a : α)
    (h : l.filter p = [a]) : l.find? p = some a := by
  induction l with
  | nil => cases h
  | cons x l ih =>
    cases hx : p x with
    | true =>
      rw [List.filter_cons_of_pos hx] at h
      rw [List.find?_cons_of_pos l hx]
      exact congrArg some (List.cons_eq_cons.mp h).1
    | false =>
      rw [List.filter_cons_of_neg (by simp [hx])] at h
      rw [List.find?_cons_of_neg l (by simp [hx])]
      exact ih h

/-- When every non-daily note-set in the list carries a non-empty
directory, the matching loop of `get_note_set` returns the first
non-daily note-set whose directory parses to the expected path, and the
note-set-not-found error when none does. -/
theorem findDirMatch_spec (path : PyPath) (sid : Nat) (l : List NoteSet)
    (hgood : ∀ ns ∈ l, ns.daily_notes = false → ∃ d, ns.directory = some d ∧ d ≠ "") :
    findDirMatch path sid l
      = match l.find? (fun ns => !ns.daily_notes
            && (ns.directory.map strToPath == some path)) with
        | some ns => .ok ns
        | none => .error ("Note set not found for source ID " ++ toString sid ++ ".") := by
  induction l with
  | nil => rfl
  | cons ns l ih =>
    have hgl : ∀ n ∈ l, n.daily_notes = false → ∃ d, n.directory = some d ∧ d ≠ "" :=
      fun n hn => hgood n (List.mem_cons_of_mem _ hn)
    cases hd : ns.daily_notes with
    | true =>
      rw [List.find?_cons_of_neg l (by simp [hd]), findDirMatch, hd]
      simp only [if_true]
      exact ih hgl
    | false =>
      obtain ⟨d, hdir, hne⟩ := hgood ns (List.mem_cons_self ns l) hd
      by_cases hm : strToPath d = path
      · rw [List.find?_cons_of_pos l (by simp [hd, hdir, hm]), findDirMatch, hd, hdir]
        simp [hne, hm]
      · rw [List.find?_cons_of_neg l (by simp [hd, hdir, hm]), findDirMatch, hd, hdir]
        simp only [if_neg hne, if_neg hm]
        exact ih hgl

/-- C3 counterexample: a catalog built by the startup pipeline from a
configuration whose source sub-path `x` does not exist on disk contains a
non-daily note-set whose `directory` is exactly the expected absolute
directory `/v/x`, yet `get_note_set 1` fails with a path-does-not-exist
error instead of returning that matching note-set (or a
note-set-not-found error). -/
theorem get_note_set_counterexample :
    (mkCatalog fmSimple fsNoSourceDir 100 "T" cfgDirOnly).map (fun cat =>
        (cat.note_sets.map NoteSet.directory, cat.note_sets.map NoteSet.daily_notes,
         get_note_set cat fsNoSourceDir 1))
      = .ok ([some "/v/x"], [false],
          .error "Note source path x does not exist in the vault.")
      ∧ pstr ((strToPath "/v").join (strToPath "x")) = "/v/x" :=
  ⟨rfl, rfl⟩

/-- C3 amended: `get_note_set` fails with a source-not-found error for an
id absent from the effective source list; for the daily source it returns
the unique daily note-set; for a directory source it first requires the
source's path to be set and the computed absolute directory to exist on
disk (failing with a path error otherwise, even when a matching note-set
exists), and only then returns the first non-daily note-set whose
`directory` equals the computed directory, failing with a
note-set-not-found error when none matches; and `get_note` with a
resolvable source but an absent note id fails with a note-not-found
error. -/
theorem get_note_set_amended (cat : Catalog) (fs : FS) (sid nid : Nat) :
    ((∀ s ∈ cat.sources, s.source_id ≠ sid) →
        get_note_set cat fs sid
          = .error ("Note source with ID " ++ toString sid ++ " not found."))
      ∧ (∀ src ns, get_note_source cat sid = some src → src.daily_notes = true →
          cat.note_sets.filter (fun n => n.daily_notes) = [ns] →
          get_note_set cat fs sid = .ok ns)
      ∧ (∀ src p, get_note_source cat sid = some src → src.daily_notes = false →
          src.path = some p → p ≠ "" →
          fs.pexists (cat.vault.join (strToPath p)) = true →
          (∀ ns ∈ cat.note_sets, ns.daily_notes = false → ∃ d, ns.directory = some d ∧ d ≠ "") →
          get_note_set cat fs sid
            = match cat.note_sets.find? (fun ns => !ns.daily_notes
                  && (ns.directory.map strToPath == some (cat.vault.join (strToPath p)))) with
              | some ns => .ok ns
              | none => .error ("Note set not found for source ID " ++ toString sid ++ "."))
      ∧ (∀ ns, get_note_set cat fs sid = .ok ns →
          (∀ n ∈ ns.notes, n.note_id ≠ nid) →
          get_note cat fs sid nid
            = .error ("Note with ID " ++ toString nid ++ " not found in note set for source ID "
                ++ toString sid ++ ".")) := by
  refine ⟨?_, ?_, ?_, ?_⟩
  · intro habs
    have h : get_note_source cat sid = none := by
      rw [get_note_source, List.find?_eq_none]
      intro s hs
      simp [habs s hs]
    rw [get_note_set, h]
  · intro src ns hsrc hdaily hfilter
    rw [get_note_set, hsrc]
    simp only [hdaily, if_true, find?_of_filter_singleton _ _ _ hfilter]
  · intro src p hsrc hdaily hpath hpne hex hgood
    rw [get_note_set, hsrc]
    simp only [hdaily, Bool.false_eq_true, if_false, hpath, if_neg hpne, hex, Bool.not_true,
      Bool.false_eq_true, if_false]
    exact findDirMatch_spec (cat.vault.join (strToPath p)) sid cat.note_sets hgood
  · intro ns hset hnone
    rw [get_note, hset]
    have h : ns.notes.find? (fun n => n.note_id = nid) = none := by
      rw [List.find?_eq_none]
      intro n hn
      simp [hnone n hn]
    show (match ns.notes.find? (fun n => n.note_id = nid) with
      | some n => Except.ok n
      | none => Except.error ("Note with ID " ++ toString nid
          ++ " not found in note set for source ID " ++ toString sid ++ ".")) = _
    rw [h]

/-- C3 witness: the four amended behaviors on the concrete catalog
`wCat` — absent id 9, the daily source 2, the directory source 1, and a
note lookup with absent note id 9. -/
theorem get_note_set_amended_witness :
    get_note_set wCat wFs 9 = .error "Note source with ID 9 not found."
      ∧ get_note_set wCat wFs 2 = .ok wSetDaily
      ∧ get_note_set wCat wFs 1 = .ok wSetDir
      ∧ get_note wCat wFs 1 9
          = .error "Note with ID 9 not found in note set for source ID 1." := by
  have hgood : ∀ ns ∈ wCat.note_sets, ns.daily_notes = false →
      ∃ d, ns.directory = some d ∧ d ≠ "" := by
    intro ns hns hdf
    rcases List.mem_cons.mp hns with rfl | hns
    · exact absurd hdf (by decide)
    · rcases List.mem_cons.mp hns with rfl | hns
      · exact ⟨"/v/x", rfl, by decide⟩
      · cases hns
  have h1 := (get_note_set_amended wCat wFs 9 0).1 (by decide)
  have h2 := (get_note_set_amended wCat wFs 2 0).2.1 wSrcDaily wSetDaily rfl rfl rfl
  have h3 := ((get_note_set_amended wCat wFs 1 0).2.2.1 wSrcDir "x" rfl rfl rfl (by decide)
    (by decide) hgood).trans (by rfl)
  have h4 := (get_note_set_amended wCat wFs 1 9).2.2.2 wSetDir h3 (by decide)
  exact ⟨h1, h2, h3, h4⟩

/-- C7: for a resolvable note, `get_note_text` fails when the note's path
is null; with a path set, it resolves the path against the vault root and
fails when the file does not exist on the query-time filesystem;
otherwise it returns the body of the file's *current* content as split by
the external frontmatter parser (the conclusion holds for every
query-time filesystem `fs`, so the text is re-read fresh on each call —
never served from a cache — and round-trips the parsed body). -/
theorem get_note_text_spec (fm : String → Option Post) (cat : Catalog) (fs : FS)
    (sid nid : Nat) (note : Note) (h : get_note cat fs sid nid = .ok note) :
    (note.path = none →
        get_note_text fm cat fs sid nid
          = .error ("Note path is not set for note ID " ++ toString nid ++ "."))
      ∧ (∀ p, note.path = some p → p ≠ "" →
          fs.pexists (cat.vault.join (strToPath p)) = false →
          get_note_text fm cat fs sid nid = .error ("Note file does not exist: " ++ p))
      ∧ (∀ p raw post, note.path = some p → p ≠ "" →
          fs.lookupFile (cat.vault.join (strToPath p)) = some raw →
          fm raw = some post →
          get_note_text fm cat fs sid nid = .ok post.content) := by
  refine ⟨?_, ?_, ?_⟩
  · intro hp
    rw [get_note_text, h]
    show (match note.path with
      | none => Except.error ("Note path is not set for note ID " ++ toString nid ++ ".")
      | some p => _) = _
    rw [hp]
  · intro p hp hpne hmiss
    rw [get_note_text, h]
    show (match note.path with
      | none => Except.error ("Note path is not set for note ID " ++ toString nid ++ ".")
      | some p => _) = _
    rw [hp]
    simp only [if_neg hpne, hmiss, Bool.not_false, if_true]
  · intro p raw post hp hpne hraw hfm
    rw [get_note_text, h]
    show (match note.path with
      | none => Except.error ("Note path is not set for note ID " ++ toString nid ++ ".")
      | some p => _) = _
    rw [hp]
    simp only [if_neg hpne, pexists_of_lookup fs _ raw hraw, Bool.not_true,
      Bool.false_eq_true, if_false, hraw, Option.bind, hfm]

/-- C7 witness: on the concrete catalog `wCat`, note 1 of source 1 is
backed by file `/v/x/a.md` with raw text "A", and `get_note_text` returns
that text's parsed body. -/
theorem get_note_text_spec_witness :
    get_note_text fmSimple wCat wFs 1 1 = .ok "A" :=
  (get_note_text_spec fmSimple wCat wFs 1 1 wNote rfl).2.2 "x/a.md" "A" ⟨[], "A"⟩ rfl
    (by decide) rfl rfl
